import Mathlib

/-!
Verification development for the aiadvent relay service.

The file embeds, as executable Lean definitions, the retry engine of
internal/retry/retry.go and the admission controller / per-user session
store of internal/telegram/webhook.go, and proves theorems about them.
Durations are modelled as exact rationals (nanoseconds), standing in for
Go's `time.Duration` and the `float64` backoff arithmetic; contexts,
random sources and the HTTP transport are passed in explicitly as
environments, the way the Go code receives them through injectable
`Sleep`/`Now`/`Rand` fields and the `do` closure.
-/

namespace Aiadvent

namespace Retry

abbrev Duration := ℚ

def millisecond : Duration := 1000000

def second : Duration := 1000000000

def defaultBaseDelay : Duration := 500 * millisecond

def defaultMaxDelay : Duration := 8 * second

def defaultMultiplier : ℚ := 2

def defaultMaxAttempts : Int := 6

def defaultJitterFraction : ℚ := 3 / 10

def defaultSnippetLimit : Int := 200

/-- Embeds `retry.Policy`.  The injectable `Sleep`/`Now`/`Rand` sources are
not fields here; they are passed explicitly to the functions that use them. -/
structure Policy where
  baseDelay : Duration
  maxDelay : Duration
  multiplier : ℚ
  maxAttempts : Int
  jitterFraction : ℚ
  snippetLimit : Int

/-- Embeds `withDefaults`: zero-valued fields are replaced by the defaults. -/
def withDefaults (p : Policy) : Policy where
  baseDelay := if p.baseDelay = 0 then defaultBaseDelay else p.baseDelay
  maxDelay := if p.maxDelay = 0 then defaultMaxDelay else p.maxDelay
  multiplier := if p.multiplier = 0 then defaultMultiplier else p.multiplier
  maxAttempts := if p.maxAttempts = 0 then defaultMaxAttempts else p.maxAttempts
  jitterFraction := if p.jitterFraction = 0 then defaultJitterFraction else p.jitterFraction
  snippetLimit := if p.snippetLimit = 0 then defaultSnippetLimit else p.snippetLimit

/-- Embeds `isRetryableStatus`: the fixed retryable status set. -/
def isRetryableStatus (status : Int) : Bool :=
  status == 408 || status == 429 || status == 500 ||
    status == 502 || status == 503 || status == 504

/-- Embeds `Policy.backoffDelay`: exponential backoff capped at `maxDelay`. -/
def backoffDelay (p : Policy) (retryIndex : Int) : Duration :=
  let idx := if retryIndex < 1 then 1 else retryIndex
  let delay := p.baseDelay * p.multiplier ^ (idx - 1).toNat
  if delay > p.maxDelay then p.maxDelay else delay

/-- Embeds `Policy.jitterDelay`; `r` is the value drawn from `p.Rand()`. -/
def jitterDelay (p : Policy) (r : ℚ) (delay : Duration) : Duration :=
  if delay ≤ 0 ∨ p.jitterFraction ≤ 0 then delay
  else
    let factor := 1 + (r * 2 - 1) * p.jitterFraction
    let adjusted := delay * factor
    if adjusted < 0 then 0 else adjusted

/-- Embeds `minDuration`. -/
def minDuration (a b : Duration) : Duration := if a ≤ b then a else b

/-- The `Retry-After` header of a response, as seen after Go's parsing
attempts: empty after trimming, a `strconv.Atoi` success, an
`http.ParseTime` success (an absolute time on the same clock as `now`), or
a value that parses as neither. -/
inductive RetryAfterHeader where
  | absent
  | intSeconds (seconds : Int)
  | httpDate (date : Duration)
  | malformed
  deriving DecidableEq

/-- Embeds `parseRetryAfter`: the hint duration and whether a hint is used. -/
def parseRetryAfter (h : RetryAfterHeader) (now : Duration) : Duration × Bool :=
  match h with
  | .absent => (0, false)
  | .intSeconds s => if s < 0 then (0, true) else ((s : ℚ) * second, true)
  | .httpDate t =>
      let delay := t - now
      (if delay < 0 then 0 else delay, true)
  | .malformed => (0, false)

/-- Embeds `Policy.nextDelay`. -/
def nextDelay (p : Policy) (r : ℚ) (retryIndex : Int)
    (retryAfter : Duration) (usedRetryAfter : Bool) : Duration :=
  if usedRetryAfter then minDuration retryAfter p.maxDelay
  else jitterDelay p r (backoffDelay p retryIndex)

/-- Embeds `bodySnippet`: a size-capped prefix of the response body. -/
def bodySnippet (body : List Char) (limit : Int) : List Char :=
  if body.length = 0 ∨ limit ≤ 0 then []
  else if (body.length : Int) ≤ limit then body
  else body.take limit.toNat

/-- An `*http.Response` as far as `DoHTTP` inspects it. -/
structure Response where
  status : Int
  retryAfter : RetryAfterHeader
  deriving DecidableEq

/-- The result of one call of the `do` closure: a response with a body, a
nil response with nil error, or a network error.  For a network error the
flag records what `isRetryableNetErr(ctx, err)` returns for it at that
point. -/
inductive Outcome where
  | ok (resp : Response) (body : List Char)
  | nilResponse
  | netErr (retryable : Bool)
  deriving DecidableEq

/-- The environment of one `DoHTTP` invocation, indexed by 1-based attempt
number: whether `ctx.Err()` is already non-nil at the top of the attempt,
what the `do` closure returns, and whether the cancellation-aware
`policy.Sleep` after the attempt returns the context's error. -/
structure Env where
  cancelledBefore : Int → Bool
  outcome : Int → Outcome
  sleepCancelled : Int → Bool

/-- The cause stored in an `ExhaustedError`: either the last network error
or an `HTTPStatusError{status, snippet}`. -/
inductive Cause where
  | network
  | httpStatus (status : Int) (snippet : List Char)
  deriving DecidableEq

/-- The value `DoHTTP` returns: the context's error, a response with nil
error, the raw network error, the "nil response" error, an
`ExhaustedError{cause, attempts}`, or the fallback error after the loop. -/
inductive RetryOutcome where
  | ctxError
  | response (resp : Response) (body : List Char)
  | netFailure
  | nilResponseError
  | exhausted (cause : Cause) (attempts : Int)
  | loopFallbackError
  deriving DecidableEq

/-- Embeds the loop body of `DoHTTP`, with `fuel` counting the remaining
loop iterations (`p.maxAttempts - attempt + 1` at every entry reached from
`doHTTP`) and returning the result together with the number of calls made
to the `do` closure from this attempt on. -/
def doHTTPLoop (p : Policy) (env : Env) : Nat → Int → RetryOutcome × Nat
  | 0, _ => (.loopFallbackError, 0)
  | fuel + 1, attempt =>
    if env.cancelledBefore attempt then (.ctxError, 0)
    else
      match env.outcome attempt with
      | .netErr retryable =>
        if retryable = false ∨ attempt = p.maxAttempts then
          if attempt = p.maxAttempts ∧ retryable = true then
            (.exhausted .network attempt, 1)
          else (.netFailure, 1)
        else if env.sleepCancelled attempt then (.ctxError, 1)
        else
          let rest := doHTTPLoop p env fuel (attempt + 1)
          (rest.1, rest.2 + 1)
      | .nilResponse => (.nilResponseError, 1)
      | .ok resp body =>
        if isRetryableStatus resp.status = true then
          if attempt = p.maxAttempts then
            (.exhausted (.httpStatus resp.status (bodySnippet body p.snippetLimit)) attempt, 1)
          else if env.sleepCancelled attempt then (.ctxError, 1)
          else
            let rest := doHTTPLoop p env fuel (attempt + 1)
            (rest.1, rest.2 + 1)
        else (.response resp body, 1)

/-- Embeds `DoHTTP`: apply `withDefaults`, then run the loop from attempt 1. -/
def doHTTP (p : Policy) (env : Env) : RetryOutcome × Nat :=
  let q := withDefaults p
  doHTTPLoop q env q.maxAttempts.toNat 1

/-- The cancellation signal never fires during this invocation. -/
def noCancel (env : Env) : Prop :=
  (∀ i, env.cancelledBefore i = false) ∧ (∀ i, env.sleepCancelled i = false)

/-- Attempt `i` has a transient outcome: a retryable network error or a
response with a retryable status. -/
def transientAt (env : Env) (i : Int) : Prop :=
  match env.outcome i with
  | .netErr r => r = true
  | .ok resp _ => isRetryableStatus resp.status = true
  | .nilResponse => False

/-- Every attempt has a transient outcome. -/
def allTransient (env : Env) : Prop := ∀ i, transientAt env i

/-- The `ExhaustedError` cause produced for a given last outcome. -/
def outcomeCause (limit : Int) : Outcome → Cause
  | .netErr _ => .network
  | .ok resp body => .httpStatus resp.status (bodySnippet body limit)
  | .nilResponse => .network
/-- Unfolds one iteration of the `DoHTTP` loop. -/
theorem doHTTPLoop_succ (p : Policy) (env : Env) (fuel : Nat) (attempt : Int) :
    doHTTPLoop p env (fuel + 1) attempt =
      if env.cancelledBefore attempt then (.ctxError, 0)
      else
        match env.outcome attempt with
        | .netErr retryable =>
          if retryable = false ∨ attempt = p.maxAttempts then
            if attempt = p.maxAttempts ∧ retryable = true then
              (.exhausted .network attempt, 1)
            else (.netFailure, 1)
          else if env.sleepCancelled attempt then (.ctxError, 1)
          else
            let rest := doHTTPLoop p env fuel (attempt + 1)
            (rest.1, rest.2 + 1)
        | .nilResponse => (.nilResponseError, 1)
        | .ok resp body =>
          if isRetryableStatus resp.status = true then
            if attempt = p.maxAttempts then
              (.exhausted (.httpStatus resp.status (bodySnippet body p.snippetLimit)) attempt, 1)
            else if env.sleepCancelled attempt then (.ctxError, 1)
            else
              let rest := doHTTPLoop p env fuel (attempt + 1)
              (rest.1, rest.2 + 1)
          else (.response resp body, 1) := rfl

/-- Any entered attempt that is not pre-cancelled calls the `do` closure at
least once. -/
theorem doHTTPLoop_calls_pos (p : Policy) (env : Env) (fuel : Nat) (attempt : Int)
    (h : env.cancelledBefore attempt = false) :
    1 ≤ (doHTTPLoop p env (fuel + 1) attempt).2 := by
  rw [doHTTPLoop_succ]
  simp only [h, Bool.false_eq_true, if_false]
  cases hout : env.outcome attempt
  case ok resp body =>
    simp only []
    split_ifs <;> simp
  case nilResponse => simp
  case netErr r =>
    simp only []
    split_ifs <;> simp

/-- C1: at any attempt of a `DoHTTP` run with no cancellation, a response
with a status in the retryable set at a non-final attempt leads to at least
one further call of the `do` closure, while a response with any other
status is returned as the final result, with no error, after exactly the
one call made at this attempt.  `fuel` is the remaining iteration count the
loop has when it enters attempt `i`. -/
theorem retry_status_decides_retry (p : Policy) (env : Env) (i : Int) (fuel : Nat)
    (resp : Response) (body : List Char)
    (hnc : noCancel env) (hout : env.outcome i = .ok resp body)
    (h1 : 1 ≤ i) (hle : i ≤ p.maxAttempts)
    (hfuel : (fuel : Int) = p.maxAttempts - i + 1) :
    (isRetryableStatus resp.status = true → i < p.maxAttempts →
        2 ≤ (doHTTPLoop p env fuel i).2) ∧
    (isRetryableStatus resp.status = false →
        doHTTPLoop p env fuel i = (.response resp body, 1)) := by
  obtain ⟨hcb, hsc⟩ := hnc
  constructor
  · intro hret hlt
    obtain ⟨m, rfl⟩ : ∃ m, fuel = m + 2 := ⟨fuel - 2, by omega⟩
    have h2 : ¬ i = p.maxAttempts := by omega
    have hpos := doHTTPLoop_calls_pos p env m (i + 1) (hcb (i + 1))
    rw [show m + 2 = (m + 1) + 1 from rfl, doHTTPLoop_succ]
    simp only [hcb, Bool.false_eq_true, if_false, hout, hret, if_true, h2, hsc]
    omega
  · intro hret
    obtain ⟨m, rfl⟩ : ∃ m, fuel = m + 1 := ⟨fuel - 1, by omega⟩
    rw [doHTTPLoop_succ]
    simp [hcb, hout, hret]

/-- The environment used by the C1 witness: every attempt yields a 429. -/
def c1EnvRetryable : Env where
  cancelledBefore := fun _ => false
  outcome := fun _ => .ok ⟨429, .absent⟩ []
  sleepCancelled := fun _ => false

/-- The environment used by the C1 witness: every attempt yields a 200. -/
def c1EnvFinal : Env where
  cancelledBefore := fun _ => false
  outcome := fun _ => .ok ⟨200, .absent⟩ []
  sleepCancelled := fun _ => false

/-- A small concrete policy used by the witnesses. -/
def smallPolicy : Policy where
  baseDelay := 1
  maxDelay := 8
  multiplier := 2
  maxAttempts := 3
  jitterFraction := 1
  snippetLimit := 200

theorem retry_status_decides_retry_witness :
    2 ≤ (doHTTPLoop smallPolicy c1EnvRetryable 3 1).2 ∧
    doHTTPLoop smallPolicy c1EnvFinal 3 1 = (.response ⟨200, .absent⟩ [], 1) :=
  ⟨(retry_status_decides_retry smallPolicy c1EnvRetryable 1 3 ⟨429, .absent⟩ []
      ⟨fun _ => rfl, fun _ => rfl⟩ rfl (by decide) (by decide) (by decide)).1
      rfl (by decide),
   (retry_status_decides_retry smallPolicy c1EnvFinal 1 3 ⟨200, .absent⟩ []
      ⟨fun _ => rfl, fun _ => rfl⟩ rfl (by decide) (by decide) (by decide)).2 rfl⟩

/-- A no-cancel, all-transient run exhausts every remaining attempt: from
attempt `i` on, the loop performs the remaining `maxAttempts - i + 1` calls
and returns an exhaustion result carrying the last attempt's cause. -/
theorem doHTTPLoop_allTransient (p : Policy) (env : Env)
    (hnc : noCancel env) (hat : allTransient env) :
    ∀ (fuel : Nat) (i : Int), 1 ≤ i → i ≤ p.maxAttempts →
      (fuel : Int) = p.maxAttempts - i + 1 →
      doHTTPLoop p env fuel i =
        (.exhausted (outcomeCause p.snippetLimit (env.outcome p.maxAttempts))
            p.maxAttempts, fuel) := by
  obtain ⟨hcb, hsc⟩ := hnc
  intro fuel
  induction fuel with
  | zero => intro i h1 hle hfuel; omega
  | succ m ih =>
    intro i h1 hle hfuel
    have htr := hat i
    rw [doHTTPLoop_succ]
    cases hout : env.outcome i with
    | netErr r =>
      simp only [transientAt, hout] at htr
      subst htr
      by_cases hmax : i = p.maxAttempts
      · have hm : m = 0 := by omega
        have houtmax : env.outcome p.maxAttempts = Outcome.netErr true := hmax ▸ hout
        simp [hcb, hmax, houtmax, outcomeCause, hm]
      · have hrec := ih (i + 1) (by omega) (by omega) (by omega)
        simp [hcb, hsc, hmax, hrec]
    | nilResponse => simp only [transientAt, hout] at htr
    | ok resp body =>
      simp only [transientAt, hout] at htr
      by_cases hmax : i = p.maxAttempts
      · have hm : m = 0 := by omega
        have houtmax : env.outcome p.maxAttempts = Outcome.ok resp body := hmax ▸ hout
        simp [hcb, htr, hmax, houtmax, outcomeCause, hm]
      · have hrec := ih (i + 1) (by omega) (by omega) (by omega)
        simp [hcb, hsc, htr, hmax, hrec]

/-- C2: with `maxAttempts = N ≥ 1`, an uncancelled `DoHTTP` run whose every
attempt is transient calls the `do` closure exactly `N` times and returns
an exhaustion error whose attempt count is `N` and whose cause is the last
attempt's failure (an HTTP status error for status-based failures). -/
theorem retry_exhaustion_attempts (p : Policy) (env : Env) (N : Int)
    (hN : p.maxAttempts = N) (h1 : 1 ≤ N)
    (hnc : noCancel env) (hat : allTransient env) :
    doHTTP p env =
      (.exhausted (outcomeCause (withDefaults p).snippetLimit (env.outcome N)) N,
       N.toNat) := by
  have hq : (withDefaults p).maxAttempts = N := by
    simp only [withDefaults, hN]
    rw [if_neg (by omega)]
  simp only [doHTTP]
  rw [doHTTPLoop_allTransient (withDefaults p) env hnc hat
    (withDefaults p).maxAttempts.toNat 1 le_rfl (by omega) (by omega)]
  rw [hq]

/-- The environment used by the C2 witness: every attempt yields a 500. -/
def c2Env : Env where
  cancelledBefore := fun _ => false
  outcome := fun _ => .ok ⟨500, .absent⟩ []
  sleepCancelled := fun _ => false

theorem retry_exhaustion_attempts_witness :
    doHTTP smallPolicy c2Env =
      (.exhausted (outcomeCause (withDefaults smallPolicy).snippetLimit
          (c2Env.outcome 3)) 3, (3 : Int).toNat) :=
  retry_exhaustion_attempts smallPolicy c2Env 3 rfl (by decide)
    ⟨fun _ => rfl, fun _ => rfl⟩ (fun _ => rfl)

/-- C3: a transient response carrying a `Retry-After` header that parses as
an integer or as an HTTP date yields a next delay of exactly
`min(max(0, hint), maxDelay)` with no jitter, while any other header value
falls back to the jittered algorithmic backoff. -/
theorem retry_hint_overrides_backoff (p : Policy) (r : ℚ) (i : Int)
    (now : Duration) (s : Int) (t : Duration) :
    nextDelay p r i (parseRetryAfter (.intSeconds s) now).1
        (parseRetryAfter (.intSeconds s) now).2
      = minDuration (max 0 ((s : ℚ) * second)) p.maxDelay ∧
    nextDelay p r i (parseRetryAfter (.httpDate t) now).1
        (parseRetryAfter (.httpDate t) now).2
      = minDuration (max 0 (t - now)) p.maxDelay ∧
    nextDelay p r i (parseRetryAfter .malformed now).1
        (parseRetryAfter .malformed now).2
      = jitterDelay p r (backoffDelay p i) := by
  refine ⟨?_, ?_, ?_⟩
  · simp only [parseRetryAfter, nextDelay]
    by_cases hs : s < 0
    · rw [if_pos hs]
      simp only [if_true]
      congr 1
      have : (s : ℚ) * second ≤ 0 := by
        apply mul_nonpos_of_nonpos_of_nonneg
        · exact_mod_cast le_of_lt hs
        · norm_num [second]
      exact (max_eq_left this).symm
    · rw [if_neg hs]
      simp only [if_true]
      congr 1
      have : (0 : ℚ) ≤ (s : ℚ) * second := by
        apply mul_nonneg _ (by norm_num [second])
        exact_mod_cast le_of_not_lt hs
      exact (max_eq_right this).symm
  · simp only [parseRetryAfter, nextDelay, if_true]
    congr 1
    by_cases hd : t - now < 0
    · rw [if_pos hd]
      exact (max_eq_left (le_of_lt hd)).symm
    · rw [if_neg hd]
      exact (max_eq_right (le_of_not_lt hd)).symm
  · simp [parseRetryAfter, nextDelay]

/-- The unjittered capped backoff is nonnegative when the base and cap are. -/
theorem backoffDelay_nonneg (p : Policy) (hbase : 0 ≤ p.baseDelay)
    (hmaxd : 0 ≤ p.maxDelay) (hmult : 1 ≤ p.multiplier) (i : Int) :
    0 ≤ backoffDelay p i := by
  simp only [backoffDelay]
  have h0 : ∀ n : Nat, (0 : ℚ) ≤ p.baseDelay * p.multiplier ^ n :=
    fun n => mul_nonneg hbase (pow_nonneg (le_trans zero_le_one hmult) n)
  split <;> split
  · exact hmaxd
  · exact h0 _
  · exact hmaxd
  · exact h0 _

/-- The jittered delay stays in the symmetric band around a nonnegative
delay, with the lower bound clamped at zero. -/
theorem jitterDelay_band (p : Policy) (hjf : 0 ≤ p.jitterFraction) (r : ℚ)
    (hr0 : 0 ≤ r) (hr1 : r ≤ 1) (d : ℚ) (hd : 0 ≤ d) :
    max 0 (d * (1 - p.jitterFraction)) ≤ jitterDelay p r d ∧
    jitterDelay p r d ≤ d * (1 + p.jitterFraction) := by
  have hlow : d * (1 - p.jitterFraction) ≤ d * (1 + (r * 2 - 1) * p.jitterFraction) := by
    nlinarith [mul_nonneg (mul_nonneg hd hjf) hr0]
  have hhigh : d * (1 + (r * 2 - 1) * p.jitterFraction) ≤ d * (1 + p.jitterFraction) := by
    nlinarith [mul_nonneg (mul_nonneg hd hjf) (sub_nonneg.mpr hr1)]
  have hup0 : 0 ≤ d * (1 + p.jitterFraction) := by nlinarith
  simp only [jitterDelay]
  by_cases hcond : d ≤ 0 ∨ p.jitterFraction ≤ 0
  · rw [if_pos hcond]
    rcases hcond with h | h
    · have hd0 : d = 0 := le_antisymm h hd
      subst hd0
      simp
    · have hjf0 : p.jitterFraction = 0 := le_antisymm h hjf
      rw [hjf0]
      simp [max_eq_right hd]
  · rw [if_neg hcond]
    by_cases hneg : d * (1 + (r * 2 - 1) * p.jitterFraction) < 0
    · rw [if_pos hneg]
      exact ⟨max_le le_rfl (by linarith), hup0⟩
    · rw [if_neg hneg]
      exact ⟨max_le (le_of_not_lt hneg) hlow, hhigh⟩

/-- The C4 counterexample policy: a negative base delay (a representable
`time.Duration`) with the default multiplier. -/
def c4Policy : Policy where
  baseDelay := -1
  maxDelay := 8 * second
  multiplier := 2
  maxAttempts := 6
  jitterFraction := 3 / 10
  snippetLimit := 200

/-- C4 counterexample: with multiplier 2 ≥ 1 but base delay -1ns, the capped
backoff strictly decreases from attempt index 1 (-1ns) to index 2 (-2ns),
so the claimed monotonicity over every policy with multiplier ≥ 1 fails. -/
theorem backoff_monotone_counterexample :
    ¬ (backoffDelay c4Policy 1 ≤ backoffDelay c4Policy 2) := by
  norm_num [backoffDelay, c4Policy, second]

/-- C4 amended: for every policy with nonnegative base delay, max delay and
jitter fraction and multiplier ≥ 1, the capped backoff is monotone in the
attempt index, and for every random draw in [0,1] the jittered delay lies
between `delay*(1-jitterFraction)` clamped at zero and
`delay*(1+jitterFraction)`. -/
theorem backoff_monotone_and_jitter_band (p : Policy)
    (hbase : 0 ≤ p.baseDelay) (hmaxd : 0 ≤ p.maxDelay) (hmult : 1 ≤ p.multiplier)
    (hjf : 0 ≤ p.jitterFraction)
    (i j : Int) (hij : i ≤ j) (r : ℚ) (hr0 : 0 ≤ r) (hr1 : r ≤ 1) :
    backoffDelay p i ≤ backoffDelay p j ∧
    max 0 (backoffDelay p i * (1 - p.jitterFraction)) ≤
      jitterDelay p r (backoffDelay p i) ∧
    jitterDelay p r (backoffDelay p i) ≤ backoffDelay p i * (1 + p.jitterFraction) := by
  refine ⟨?_, (jitterDelay_band p hjf r hr0 hr1 _
    (backoffDelay_nonneg p hbase hmaxd hmult i)).1,
    (jitterDelay_band p hjf r hr0 hr1 _
    (backoffDelay_nonneg p hbase hmaxd hmult i)).2⟩
  simp only [backoffDelay]
  have hexp : ((if i < 1 then 1 else i) - 1).toNat ≤ ((if j < 1 then 1 else j) - 1).toNat := by
    split <;> split <;> omega
  have hraw : p.baseDelay * p.multiplier ^ ((if i < 1 then 1 else i) - 1).toNat ≤
      p.baseDelay * p.multiplier ^ ((if j < 1 then 1 else j) - 1).toNat :=
    mul_le_mul_of_nonneg_left (pow_le_pow_right₀ hmult hexp) hbase
  have hcap : ∀ x : ℚ, (if x > p.maxDelay then p.maxDelay else x) = min x p.maxDelay := by
    intro x
    by_cases h : x > p.maxDelay
    · rw [if_pos h, min_eq_right h.le]
    · rw [if_neg h, min_eq_left (le_of_not_lt h)]
  rw [hcap, hcap]
  exact min_le_min hraw le_rfl

theorem backoff_monotone_and_jitter_band_witness :
    backoffDelay smallPolicy 1 ≤ backoffDelay smallPolicy 2 ∧
    max 0 (backoffDelay smallPolicy 1 * (1 - smallPolicy.jitterFraction)) ≤
      jitterDelay smallPolicy 1 (backoffDelay smallPolicy 1) ∧
    jitterDelay smallPolicy 1 (backoffDelay smallPolicy 1) ≤
      backoffDelay smallPolicy 1 * (1 + smallPolicy.jitterFraction) :=
  backoff_monotone_and_jitter_band smallPolicy (by decide) (by decide) (by decide)
    (by decide) 1 2 (by decide) 1 (by decide) (by decide)

/-- C5: a `DoHTTP` run aborts with the context's error and makes no call of
the `do` closure when the context is already done before the first attempt;
at any attempt, a pre-cancelled context aborts with zero further calls, and
a cancellation that fires during the retry sleep after a transient
non-final attempt returns the context's error (not an exhaustion error)
with no further calls beyond the one already made. -/
theorem retry_cancellation_aborts (p : Policy) (env : Env) (i : Int) (fuel : Nat)
    (hmax : 1 ≤ p.maxAttempts) :
    (env.cancelledBefore 1 = true → doHTTP p env = (.ctxError, 0)) ∧
    (env.cancelledBefore i = true →
      doHTTPLoop (withDefaults p) env (fuel + 1) i = (.ctxError, 0)) ∧
    (env.cancelledBefore i = false → transientAt env i →
      i < (withDefaults p).maxAttempts → env.sleepCancelled i = true →
      doHTTPLoop (withDefaults p) env (fuel + 1) i = (.ctxError, 1)) := by
  have hq : (withDefaults p).maxAttempts = p.maxAttempts := by
    simp only [withDefaults]
    rw [if_neg (by omega)]
  refine ⟨?_, ?_, ?_⟩
  · intro hc
    obtain ⟨m, hm⟩ : ∃ m, (withDefaults p).maxAttempts.toNat = m + 1 :=
      ⟨(withDefaults p).maxAttempts.toNat - 1, by omega⟩
    simp only [doHTTP, hm]
    rw [doHTTPLoop_succ, if_pos hc]
  · intro hc
    rw [doHTTPLoop_succ, if_pos hc]
  · intro hc htr hlt hs
    rw [doHTTPLoop_succ]
    simp only [hc, Bool.false_eq_true, if_false]
    have hne : ¬ i = (withDefaults p).maxAttempts := by omega
    cases hout : env.outcome i with
    | netErr r =>
      simp only [transientAt, hout] at htr
      subst htr
      simp [hne, hs]
    | nilResponse => simp only [transientAt, hout] at htr
    | ok resp body =>
      simp only [transientAt, hout] at htr
      simp [htr, hne, hs]

/-- The environment used by the C5 witness: the context is done before
attempt 1, attempts always yield a 500, and every retry sleep is cut short
by cancellation. -/
def c5Env : Env where
  cancelledBefore := fun j => j == 1
  outcome := fun _ => .ok ⟨500, .absent⟩ []
  sleepCancelled := fun _ => true

/-- The second environment used by the C5 witness: never pre-cancelled,
every attempt transient, every sleep cancelled. -/
def c5EnvSleep : Env where
  cancelledBefore := fun _ => false
  outcome := fun _ => .ok ⟨500, .absent⟩ []
  sleepCancelled := fun _ => true

theorem retry_cancellation_aborts_witness :
    doHTTP smallPolicy c5Env = (.ctxError, 0) ∧
    doHTTPLoop (withDefaults smallPolicy) c5Env (2 + 1) 1 = (.ctxError, 0) ∧
    doHTTPLoop (withDefaults smallPolicy) c5EnvSleep (2 + 1) 1 = (.ctxError, 1) :=
  ⟨(retry_cancellation_aborts smallPolicy c5Env 1 2 (by decide)).1 rfl,
   (retry_cancellation_aborts smallPolicy c5Env 1 2 (by decide)).2.1 rfl,
   (retry_cancellation_aborts smallPolicy c5EnvSleep 1 2 (by decide)).2.2 rfl rfl
     (by decide) rfl⟩

end Retry

namespace Webhook

def defaultMaxWorkers : Int := 10

/-- The admission semaphore `h.sem`: a buffered channel of fixed capacity
whose length is the number of occupied slots. -/
structure Sem where
  capacity : Int
  occupied : Int
  deriving DecidableEq

/-- Embeds the semaphore construction in `NewWebhookHandler`: a channel of
capacity `deps.MaxWorkers`, defaulted to 10 when nonpositive, initially
empty. -/
def newSem (maxWorkers : Int) : Sem where
  capacity := if maxWorkers ≤ 0 then defaultMaxWorkers else maxWorkers
  occupied := 0

/-- Embeds `acquireSlot`.  The select between the channel send and the
acquire-timeout timer is evaluated against the channel occupancy over the
acquire window: a send on a buffered channel with free space is ready at
once and wins against the not-yet-fired timer, while a send on a full
channel with no concurrent receive during the window loses to the timer
and the call returns false. -/
def acquireSlot (s : Sem) : Bool × Sem :=
  if s.occupied < s.capacity then (true, { s with occupied := s.occupied + 1 })
  else (false, s)

/-- Embeds `releaseSlot`: a select with a `default` branch, so the receive
never blocks; it decrements the occupancy when a slot is held and is a
no-op otherwise. -/
def releaseSlot (s : Sem) : Sem :=
  if 0 < s.occupied then { s with occupied := s.occupied - 1 } else s

/-- The two deferred functions registered by the goroutines spawned in
`processAsync` and `processCallbackAsync`. -/
inductive DeferredAction where
  | releaseSlotAction
  | recoverAction
  deriving DecidableEq

/-- Runs one deferred function: `releaseSlot` frees the slot and leaves any
in-flight panic in flight; the deferred func containing `recover()` stops
an in-flight panic (logging it). -/
def runDeferred (a : DeferredAction) (s : Sem) (panicking : Bool) : Sem × Bool :=
  match a with
  | .releaseSlotAction => (releaseSlot s, panicking)
  | .recoverAction => (s, false)

/-- Runs a deferred stack, listed in execution (LIFO) order, threading the
panicking flag; the final flag tells whether a panic escaped. -/
def runAllDeferred : List DeferredAction → Sem → Bool → Sem × Bool
  | [], s, panicking => (s, panicking)
  | a :: rest, s, panicking =>
    let next := runDeferred a s panicking
    runAllDeferred rest next.1 next.2

/-- The deferred stack of the goroutines of `processAsync` and
`processCallbackAsync` in execution order: `releaseSlot` is registered
first and the recover func second, so the recover func runs first and
`releaseSlot` runs last. -/
def processDeferStack : List DeferredAction := [.recoverAction, .releaseSlotAction]

/-- One admitted unit of work after its slot is acquired: the body
(`dispatch` or `handleCallbackQuery`) either returns normally or panics,
then the deferred stack runs; the second component reports whether a panic
escaped the goroutine (which would crash the process). -/
def runAdmittedUnit (s : Sem) (bodyPanics : Bool) : Sem × Bool :=
  runAllDeferred processDeferStack s bodyPanics

structure ProcessResult where
  dispatched : Bool
  sem : Sem
  crashed : Bool
  deriving DecidableEq

/-- Embeds `processAsync` (and `processCallbackAsync`, whose structure is
identical): admission first, and only on admission is the processing
goroutine spawned; the returned state is the one after the spawned unit
has run to completion. -/
def processAsync (s : Sem) (bodyPanics : Bool) : ProcessResult :=
  let acq := acquireSlot s
  if acq.1 then
    let run := runAdmittedUnit acq.2 bodyPanics
    { dispatched := true, sem := run.1, crashed := run.2 }
  else { dispatched := false, sem := s, crashed := false }

/-- C6: with every slot occupied and no release during the acquire window,
`processAsync` drops the event — nothing is dispatched and the semaphore is
untouched; with at least one free slot, acquisition succeeds and the event
is dispatched. -/
theorem admission_full_drops_free_admits (s : Sem) (bp : Bool) :
    (s.occupied = s.capacity →
      (processAsync s bp).dispatched = false ∧ (processAsync s bp).sem = s) ∧
    (s.occupied < s.capacity → (processAsync s bp).dispatched = true) := by
  constructor
  · intro hfull
    have hnot : ¬ s.occupied < s.capacity := by omega
    simp [processAsync, acquireSlot, hnot]
  · intro hfree
    simp [processAsync, acquireSlot, hfree]

theorem admission_full_drops_free_admits_witness :
    ((processAsync ⟨2, 2⟩ false).dispatched = false ∧
      (processAsync ⟨2, 2⟩ false).sem = ⟨2, 2⟩) ∧
    (processAsync ⟨2, 1⟩ true).dispatched = true :=
  ⟨(admission_full_drops_free_admits ⟨2, 2⟩ false).1 rfl,
   (admission_full_drops_free_admits ⟨2, 1⟩ true).2 (by decide)⟩

/-- C7: a panic in the body of an admitted unit is stopped by the deferred
recover func before it can escape the goroutine (the process keeps
running), and the deferred `releaseSlot` runs on every exit path — normal
and panicking alike — so the admission slot is always released. -/
theorem admitted_fault_recovered_slot_released (s : Sem) (bp : Bool) :
    (runAdmittedUnit s bp).2 = false ∧
    (runAdmittedUnit s bp).1 = releaseSlot s ∧
    (processAsync s bp).crashed = false := by
  refine ⟨?_, ?_, ?_⟩
  · cases bp <;> rfl
  · cases bp <;> rfl
  · simp only [processAsync]
    split
    · cases bp <;> rfl
    · rfl

/-- An acquire or a release call on the semaphore. -/
inductive SemOp where
  | acquire
  | release
  deriving DecidableEq

/-- Applies one acquire or release call to the semaphore state. -/
def applySemOp (s : Sem) : SemOp → Sem
  | .acquire => (acquireSlot s).2
  | .release => releaseSlot s

/-- Runs a sequence of acquire/release calls. -/
def runSemOps (s : Sem) : List SemOp → Sem
  | [] => s
  | op :: rest => runSemOps (applySemOp s op) rest

/-- The occupancy invariant of the admission pool. -/
def semInvariant (s : Sem) : Prop := 0 ≤ s.occupied ∧ s.occupied ≤ s.capacity

/-- C10: the freshly built pool satisfies the occupancy invariant, every
sequence of acquire/release calls preserves it (so the occupied count
stays between 0 and the capacity), and a release with no slot held — an
unmatched `releaseSlot` — is a harmless no-op. -/
theorem slot_count_bounded (w : Int) (s : Sem) (ops : List SemOp)
    (h : semInvariant s) :
    semInvariant (newSem w) ∧ semInvariant (runSemOps s ops) ∧
    (s.occupied = 0 → releaseSlot s = s) := by
  refine ⟨?_, ?_, ?_⟩
  · constructor
    · simp [newSem]
    · simp only [newSem, defaultMaxWorkers]
      split <;> omega
  · induction ops generalizing s with
    | nil => exact h
    | cons op rest ih =>
      apply ih
      cases op with
      | acquire =>
        simp only [semInvariant, applySemOp, acquireSlot] at h ⊢
        split <;> (try simp) <;> omega
      | release =>
        simp only [semInvariant, applySemOp, releaseSlot] at h ⊢
        split <;> (try simp) <;> omega
  · intro h0
    simp [releaseSlot, h0]

theorem slot_count_bounded_witness :
    semInvariant (newSem 0) ∧
    semInvariant (runSemOps ⟨2, 0⟩
      [.acquire, .acquire, .acquire, .release, .release, .release]) ∧
    ((⟨2, 0⟩ : Sem).occupied = 0 → releaseSlot ⟨2, 0⟩ = ⟨2, 0⟩) :=
  slot_count_bounded 0 ⟨2, 0⟩
    [.acquire, .acquire, .acquire, .release, .release, .release]
    ⟨by decide, by decide⟩

/-- Embeds the `userState` record.  The two per-step maps are modelled as
association lists with most-recent-first lookup. -/
structure UserState where
  pending : String
  askMode : Bool
  askJSONMode : Bool
  askJSONContract : String
  dialogMode : String
  dialogID : String
  selectedModel : String
  lastQuestion : String
  lastDialogMessage : String
  showModelName : Bool
  solveMode : Bool
  solveModel : String
  solveTask : String
  solveStepMessages : List (Int × Int)
  solveStepModels : List (Int × String)
  deriving DecidableEq

/-- The zero value of `userState`, which a Go map read yields for an
absent key. -/
def emptyUserState : UserState where
  pending := ""
  askMode := false
  askJSONMode := false
  askJSONContract := ""
  dialogMode := ""
  dialogID := ""
  selectedModel := ""
  lastQuestion := ""
  lastDialogMessage := ""
  showModelName := false
  solveMode := false
  solveModel := ""
  solveTask := ""
  solveStepMessages := []
  solveStepModels := []

/-- The keyed session map `h.state`, modelled as a total function; a read
of an absent key yields the zero value, exactly as a Go map read does, so
`initialStore` maps every user to `emptyUserState`. -/
abbrev Store := Int → UserState

def initialStore : Store := fun _ => emptyUserState

def getState (st : Store) (uid : Int) : UserState := st uid

def setState (st : Store) (uid : Int) (u : UserState) : Store :=
  fun v => if v = uid then u else st v

/-- Embeds `clearPending`. -/
def clearPending (st : Store) (uid : Int) : Store :=
  setState st uid { getState st uid with pending := "" }

/-- Embeds `setAskMode`. -/
def setAskMode (st : Store) (uid : Int) (enabled : Bool) : Store :=
  setState st uid { getState st uid with askMode := enabled }

/-- Embeds `isAskMode`. -/
def isAskMode (st : Store) (uid : Int) : Bool :=
  (getState st uid).askMode

/-- Embeds `setAskJSONMode`: the contract is stored when enabling and
cleared when disabling. -/
def setAskJSONMode (st : Store) (uid : Int) (enabled : Bool) (contract : String) : Store :=
  setState st uid
    { getState st uid with
      askJSONMode := enabled
      askJSONContract := if enabled then contract else "" }

/-- Embeds `askJSONState`. -/
def askJSONState (st : Store) (uid : Int) : Bool × String :=
  let u := getState st uid
  if u.askJSONMode = false then (false, "") else (true, u.askJSONContract)

/-- Embeds `setDialogMode`: entering a dialog also resets the saved last
dialog message. -/
def setDialogMode (st : Store) (uid : Int) (mode dialogID : String) : Store :=
  setState st uid
    { getState st uid with
      dialogMode := mode
      dialogID := dialogID
      lastDialogMessage := "" }

/-- Embeds `getDialogState`. -/
def getDialogState (st : Store) (uid : Int) : String × String :=
  let u := getState st uid
  if u.dialogMode = "" then ("", "") else (u.dialogMode, u.dialogID)

/-- Embeds `isDialogMode`. -/
def isDialogMode (st : Store) (uid : Int) : Bool :=
  !((getState st uid).dialogMode == "")

/-- Embeds `clearDialogMode`. -/
def clearDialogMode (st : Store) (uid : Int) : Store :=
  setState st uid
    { getState st uid with
      dialogMode := ""
      dialogID := ""
      lastDialogMessage := "" }

/-- Embeds `setSelectedModel`. -/
def setSelectedModel (st : Store) (uid : Int) (model : String) : Store :=
  setState st uid { getState st uid with selectedModel := model }

/-- Embeds `getSelectedModel`. -/
def getSelectedModel (st : Store) (uid : Int) : String :=
  (getState st uid).selectedModel

/-- Embeds `setLastQuestion`. -/
def setLastQuestion (st : Store) (uid : Int) (question : String) : Store :=
  setState st uid { getState st uid with lastQuestion := question }

/-- Embeds `getLastQuestion`. -/
def getLastQuestion (st : Store) (uid : Int) : String :=
  (getState st uid).lastQuestion

/-- Embeds `setLastDialogMessage`. -/
def setLastDialogMessage (st : Store) (uid : Int) (message : String) : Store :=
  setState st uid { getState st uid with lastDialogMessage := message }

/-- Embeds `getLastDialogMessage`. -/
def getLastDialogMessage (st : Store) (uid : Int) : String :=
  (getState st uid).lastDialogMessage

/-- Embeds `setShowModelName`. -/
def setShowModelName (st : Store) (uid : Int) (b : Bool) : Store :=
  setState st uid { getState st uid with showModelName := b }

/-- Embeds `getAndClearShowModelName`: reads the one-shot flag and clears
it when it was set. -/
def getAndClearShowModelName (st : Store) (uid : Int) : Bool × Store :=
  let u := getState st uid
  if u.showModelName = false then (false, st)
  else (true, setState st uid { u with showModelName := false })

/-- Embeds `setSolveMode`. -/
def setSolveMode (st : Store) (uid : Int) (enabled : Bool) : Store :=
  setState st uid { getState st uid with solveMode := enabled }

/-- Embeds `isSolveMode`. -/
def isSolveMode (st : Store) (uid : Int) : Bool :=
  (getState st uid).solveMode

/-- Embeds `setSolveModel`. -/
def setSolveModel (st : Store) (uid : Int) (model : String) : Store :=
  setState st uid { getState st uid with solveModel := model }

/-- Embeds `getSolveModel`. -/
def getSolveModel (st : Store) (uid : Int) : String :=
  (getState st uid).solveModel

/-- Embeds `getSolveTask`. -/
def getSolveTask (st : Store) (uid : Int) : String :=
  (getState st uid).solveTask

/-- Most-recent-first association-list lookup, defaulting to the zero
value like a Go map read. -/
def stepModelLookup : List (Int × String) → Int → String
  | [], _ => ""
  | (k, v) :: rest, step => if k = step then v else stepModelLookup rest step

/-- Embeds `getSolveStepModel`. -/
def getSolveStepModel (st : Store) (uid : Int) (step : Int) : String :=
  stepModelLookup (getState st uid).solveStepModels step

/-- Embeds `setSolveStepModel`. -/
def setSolveStepModel (st : Store) (uid : Int) (step : Int) (model : String) : Store :=
  setState st uid
    { getState st uid with
      solveStepModels := (step, model) :: (getState st uid).solveStepModels }

/-- The outcomes of the collaborator calls `handleAsk` makes: the
authorization check, `sendThinkingAnimation`, and `llm.ChatCompletion`
(`none` is an error). -/
structure AskEnv where
  authorized : Bool
  thinkingOk : Bool
  llmAnswer : Option String
  deriving DecidableEq

/-- Embeds the session-store effects of `handleAsk`: the last question is
saved before the LLM call; the error paths perform no further writes; the
success path consumes the one-shot show-model-name flag.  Replies and
message edits are collaborator calls with no store effect. -/
def handleAsk (st : Store) (uid : Int) (question : String) (env : AskEnv) : Store :=
  if question = "" then st
  else if env.authorized = false then st
  else
    let st1 := setLastQuestion st uid question
    if env.thinkingOk = false then st1
    else
      match env.llmAnswer with
      | none => st1
      | some _ => (getAndClearShowModelName st1 uid).2

/-- The outcomes of the collaborator calls `handleAskJSON` makes. -/
structure AskJSONEnv where
  thinkingOk : Bool
  systemPromptOk : Bool
  llmAnswer : Option String
  deriving DecidableEq

/-- Embeds the session-store effects of `handleAskJSON` (contract
validation performs no store writes). -/
def handleAskJSON (st : Store) (uid : Int) (question contract : String)
    (env : AskJSONEnv) : Store :=
  if question = "" then st
  else
    let st1 := setLastQuestion st uid question
    if env.thinkingOk = false then st1
    else if env.systemPromptOk = false then st1
    else
      match env.llmAnswer with
      | none => st1
      | some _ => (getAndClearShowModelName st1 uid).2

/-- The dialog mode string `dialogModeCreatePlan`. -/
def dialogModeCreatePlan : String := "create_plan"

/-- The outcomes of the collaborator calls `handleDialogMessage` makes:
whether the dialog service is wired, `sendThinkingAnimation`, and
`dialogService.CreatePlan` (`none` is an error). -/
structure DialogEnv where
  serviceAvailable : Bool
  thinkingOk : Bool
  planAnswer : Option String
  deriving DecidableEq

/-- Embeds the session-store effects of `handleDialogMessage`: the last
dialog message is saved first; the error paths (including the unknown-mode
default branch) perform no further writes; the success path consumes the
one-shot show-model-name flag. -/
def handleDialogMessage (st : Store) (uid : Int) (text mode dialogID : String)
    (env : DialogEnv) : Store :=
  if env.serviceAvailable = false then st
  else
    let st1 := setLastDialogMessage st uid text
    if env.thinkingOk = false then st1
    else if mode = dialogModeCreatePlan then
      match env.planAnswer with
      | none => st1
      | some _ => (getAndClearShowModelName st1 uid).2
    else st1

/-- Embeds the session-store effects of `handleCreatePlanCommand`: the old
dialog (if any) is cleared through the external dialog service (no store
write), then the dialog mode is set with the freshly generated id. -/
def handleCreatePlanCommand (st : Store) (uid : Int) (newDialogID : String) : Store :=
  setDialogMode st uid dialogModeCreatePlan newDialogID

/-- Embeds the session-store effects of `handleEndDialog`: history deletion
is external; the dialog fields are cleared when a dialog is active. -/
def handleEndDialog (st : Store) (uid : Int) : Store :=
  if (getDialogState st uid).1 = "" then st
  else clearDialogMode st uid

/-- Embeds the session-store effects of the `/ask` case of `handleCommand`
(after `dispatch` has cleared any pending command): authorization check,
enable ask mode, disable JSON mode, and run `handleAsk` when an inline
argument is present. -/
def cmdAsk (st : Store) (uid : Int) (authorized : Bool) (arg : String)
    (env : AskEnv) : Store :=
  if authorized = false then st
  else
    let st1 := setAskJSONMode (setAskMode st uid true) uid false ""
    if arg = "" then st1 else handleAsk st1 uid arg env

/-- Embeds the session-store effects of the `/ask_json` case of
`handleCommand`: `contractKnown` is what `llmcontracts.HasContract` returns
for the chosen contract name. -/
def cmdAskJSON (st : Store) (uid : Int) (authorized : Bool)
    (contractName : String) (contractKnown : Bool) : Store :=
  if authorized = false then st
  else if contractKnown = false then st
  else setAskJSONMode (setAskMode st uid false) uid true contractName

/-- Embeds the session-store effects of the `/create_plan` case of
`handleCommand`. -/
def cmdCreatePlan (st : Store) (uid : Int) (authorized : Bool)
    (newDialogID : String) : Store :=
  if authorized = false then st
  else handleCreatePlanCommand st uid newDialogID

/-- Embeds the session-store effects of the `/solve` case of
`handleCommand`: `showSolveModelSelection` only reads the store. -/
def cmdSolve (st : Store) (uid : Int) (authorized : Bool) : Store :=
  if authorized = false then st else st

/-- Embeds the session-store effects of the `/end` case of
`handleCommand`. -/
def cmdEnd (st : Store) (uid : Int) : Store :=
  let ask := isAskMode st uid
  let askJSON := (askJSONState st uid).1
  let dialogActive := isDialogMode st uid
  let solveActive := isSolveMode st uid
  if ask = true ∨ askJSON = true ∨ dialogActive = true ∨ solveActive = true then
    let st1 := setSolveMode (setAskJSONMode (setAskMode st uid false) uid false "") uid false
    if dialogActive = true then handleEndDialog st1 uid else st1
  else st

/-- Embeds the session-store effects of `handleSolveModelCallback`
(reached through `handleCallbackQuery`, hence the authorization flag):
a valid model index stores the solve model and enables solve mode. -/
def cbSolveModel (st : Store) (uid : Int) (authorized : Bool)
    (validIndex : Bool) (modelID : String) : Store :=
  if authorized = false then st
  else if validIndex = false then st
  else setSolveMode (setSolveModel st uid modelID) uid true

/-- Embeds the session-store effects of `handleSolveRetryCallback`:
`randModel` is what `llm.GetRandomModelExcept` returns when the user asks
for a different model; the spawned goroutine records the model used for
the step. -/
def cbSolveRetry (st : Store) (uid : Int) (authorized : Bool) (parseOk : Bool)
    (step : Int) (action : String) (randModel : String) : Store :=
  if authorized = false then st
  else if parseOk = false then st
  else if getSolveTask st uid = "" then st
  else
    let previousModel := getSolveStepModel st uid step
    let model :=
      if action = "same" then
        if previousModel = "" then getSolveModel st uid else previousModel
      else randModel
    setSolveStepModel st uid step model

/-- Embeds the session-store effects of `handleRetryCallback`: each retry
action re-runs the matching handler on the saved input when one exists. -/
def cbRetry (st : Store) (uid : Int) (authorized : Bool) (hasMessage : Bool)
    (action : String) (aenv : AskEnv) (jenv : AskJSONEnv) (denv : DialogEnv) : Store :=
  if authorized = false then st
  else if hasMessage = false then st
  else
    let lastQ := getLastQuestion st uid
    if action = "ask" then
      if lastQ = "" then st else handleAsk st uid lastQ aenv
    else if action = "ask_json" then
      let js := askJSONState st uid
      if js.1 = false ∨ js.2 = "" then st
      else if lastQ = "" then st
      else handleAskJSON st uid lastQ js.2 jenv
    else if action = "dialog" then
      let ds := getDialogState st uid
      let lastD := getLastDialogMessage st uid
      if ds.1 = "" ∨ ds.2 = "" ∨ lastD = "" then st
      else handleDialogMessage st uid lastD ds.1 ds.2 denv
    else st

/-- The handler operations named by the session-mode claims: the mode-entry
commands, their callbacks, and `/end`, each carrying the outcomes of the
external calls the handler makes. -/
inductive Event where
  | evAsk (uid : Int) (authorized : Bool) (arg : String) (env : AskEnv)
  | evAskJSON (uid : Int) (authorized : Bool) (contractName : String) (contractKnown : Bool)
  | evCreatePlan (uid : Int) (authorized : Bool) (newDialogID : String)
  | evSolve (uid : Int) (authorized : Bool)
  | evEnd (uid : Int)
  | evSolveModelCb (uid : Int) (authorized : Bool) (validIndex : Bool) (modelID : String)
  | evSolveRetryCb (uid : Int) (authorized : Bool) (parseOk : Bool) (step : Int)
      (action : String) (randModel : String)
  | evRetryCb (uid : Int) (authorized : Bool) (hasMessage : Bool) (action : String)
      (aenv : AskEnv) (jenv : AskJSONEnv) (denv : DialogEnv)

/-- Applies one event to the store.  Commands go through `dispatch`, which
clears any pending command first; callbacks do not. -/
def applyEvent (st : Store) : Event → Store
  | .evAsk uid authorized arg env => cmdAsk (clearPending st uid) uid authorized arg env
  | .evAskJSON uid authorized contractName contractKnown =>
      cmdAskJSON (clearPending st uid) uid authorized contractName contractKnown
  | .evCreatePlan uid authorized newDialogID =>
      cmdCreatePlan (clearPending st uid) uid authorized newDialogID
  | .evSolve uid authorized => cmdSolve (clearPending st uid) uid authorized
  | .evEnd uid => cmdEnd (clearPending st uid) uid
  | .evSolveModelCb uid authorized validIndex modelID =>
      cbSolveModel st uid authorized validIndex modelID
  | .evSolveRetryCb uid authorized parseOk step action randModel =>
      cbSolveRetry st uid authorized parseOk step action randModel
  | .evRetryCb uid authorized hasMessage action aenv jenv denv =>
      cbRetry st uid authorized hasMessage action aenv jenv denv

/-- The stores reachable from the empty session map through the handler
operations. -/
inductive Reachable : Store → Prop where
  | init : Reachable initialStore
  | step (st : Store) (e : Event) : Reachable st → Reachable (applyEvent st e)

/-- `clearPending` touches no mode field, for any user. -/
theorem clearPending_frame (st : Store) (u v : Int) :
    (getState (clearPending st u) v).askMode = (getState st v).askMode ∧
    (getState (clearPending st u) v).askJSONMode = (getState st v).askJSONMode ∧
    (getState (clearPending st u) v).dialogMode = (getState st v).dialogMode ∧
    (getState (clearPending st u) v).dialogID = (getState st v).dialogID ∧
    (getState (clearPending st u) v).solveMode = (getState st v).solveMode := by
  by_cases hv : v = u <;> simp [clearPending, getState, setState, hv]

/-- `setLastQuestion` touches no mode field. -/
theorem setLastQuestion_frame (st : Store) (u : Int) (q : String) (v : Int) :
    (getState (setLastQuestion st u q) v).askMode = (getState st v).askMode ∧
    (getState (setLastQuestion st u q) v).askJSONMode = (getState st v).askJSONMode ∧
    (getState (setLastQuestion st u q) v).dialogMode = (getState st v).dialogMode ∧
    (getState (setLastQuestion st u q) v).dialogID = (getState st v).dialogID ∧
    (getState (setLastQuestion st u q) v).solveMode = (getState st v).solveMode := by
  by_cases hv : v = u <;> simp [setLastQuestion, getState, setState, hv]

/-- `setLastDialogMessage` touches no mode field. -/
theorem setLastDialogMessage_frame (st : Store) (u : Int) (m : String) (v : Int) :
    (getState (setLastDialogMessage st u m) v).askMode = (getState st v).askMode ∧
    (getState (setLastDialogMessage st u m) v).askJSONMode = (getState st v).askJSONMode ∧
    (getState (setLastDialogMessage st u m) v).dialogMode = (getState st v).dialogMode ∧
    (getState (setLastDialogMessage st u m) v).dialogID = (getState st v).dialogID ∧
    (getState (setLastDialogMessage st u m) v).solveMode = (getState st v).solveMode := by
  by_cases hv : v = u <;> simp [setLastDialogMessage, getState, setState, hv]

/-- `setSolveModel` touches no mode field. -/
theorem setSolveModel_frame (st : Store) (u : Int) (m : String) (v : Int) :
    (getState (setSolveModel st u m) v).askMode = (getState st v).askMode ∧
    (getState (setSolveModel st u m) v).askJSONMode = (getState st v).askJSONMode ∧
    (getState (setSolveModel st u m) v).dialogMode = (getState st v).dialogMode ∧
    (getState (setSolveModel st u m) v).dialogID = (getState st v).dialogID ∧
    (getState (setSolveModel st u m) v).solveMode = (getState st v).solveMode := by
  by_cases hv : v = u <;> simp [setSolveModel, getState, setState, hv]

/-- `setSolveStepModel` touches no mode field. -/
theorem setSolveStepModel_frame (st : Store) (u : Int) (step : Int) (m : String) (v : Int) :
    (getState (setSolveStepModel st u step m) v).askMode = (getState st v).askMode ∧
    (getState (setSolveStepModel st u step m) v).askJSONMode = (getState st v).askJSONMode ∧
    (getState (setSolveStepModel st u step m) v).dialogMode = (getState st v).dialogMode ∧
    (getState (setSolveStepModel st u step m) v).dialogID = (getState st v).dialogID ∧
    (getState (setSolveStepModel st u step m) v).solveMode = (getState st v).solveMode := by
  by_cases hv : v = u <;> simp [setSolveStepModel, getState, setState, hv]

/-- `getAndClearShowModelName` touches no mode field. -/
theorem getAndClearShowModelName_frame (st : Store) (u v : Int) :
    (getState (getAndClearShowModelName st u).2 v).askMode = (getState st v).askMode ∧
    (getState (getAndClearShowModelName st u).2 v).askJSONMode = (getState st v).askJSONMode ∧
    (getState (getAndClearShowModelName st u).2 v).dialogMode = (getState st v).dialogMode ∧
    (getState (getAndClearShowModelName st u).2 v).dialogID = (getState st v).dialogID ∧
    (getState (getAndClearShowModelName st u).2 v).solveMode = (getState st v).solveMode := by
  simp only [getAndClearShowModelName]
  split_ifs
  · simp
  · by_cases hv : v = u <;> simp [getState, setState, hv]

/-- `setAskMode` writes exactly the ask flag of its user. -/
theorem setAskMode_frame (st : Store) (u : Int) (b : Bool) (v : Int) :
    (getState (setAskMode st u b) v).askMode =
      (if v = u then b else (getState st v).askMode) ∧
    (getState (setAskMode st u b) v).askJSONMode = (getState st v).askJSONMode ∧
    (getState (setAskMode st u b) v).dialogMode = (getState st v).dialogMode ∧
    (getState (setAskMode st u b) v).dialogID = (getState st v).dialogID ∧
    (getState (setAskMode st u b) v).solveMode = (getState st v).solveMode := by
  by_cases hv : v = u <;> simp [setAskMode, getState, setState, hv]

/-- `setAskJSONMode` writes exactly the JSON flag (and contract) of its
user. -/
theorem setAskJSONMode_frame (st : Store) (u : Int) (b : Bool) (c : String) (v : Int) :
    (getState (setAskJSONMode st u b c) v).askMode = (getState st v).askMode ∧
    (getState (setAskJSONMode st u b c) v).askJSONMode =
      (if v = u then b else (getState st v).askJSONMode) ∧
    (getState (setAskJSONMode st u b c) v).dialogMode = (getState st v).dialogMode ∧
    (getState (setAskJSONMode st u b c) v).dialogID = (getState st v).dialogID ∧
    (getState (setAskJSONMode st u b c) v).solveMode = (getState st v).solveMode := by
  by_cases hv : v = u <;> simp [setAskJSONMode, getState, setState, hv]

/-- `setDialogMode` writes exactly the dialog fields of its user. -/
theorem setDialogMode_frame (st : Store) (u : Int) (mode dialogID : String) (v : Int) :
    (getState (setDialogMode st u mode dialogID) v).askMode = (getState st v).askMode ∧
    (getState (setDialogMode st u mode dialogID) v).askJSONMode =
      (getState st v).askJSONMode ∧
    (getState (setDialogMode st u mode dialogID) v).dialogMode =
      (if v = u then mode else (getState st v).dialogMode) ∧
    (getState (setDialogMode st u mode dialogID) v).dialogID =
      (if v = u then dialogID else (getState st v).dialogID) ∧
    (getState (setDialogMode st u mode dialogID) v).solveMode =
      (getState st v).solveMode := by
  by_cases hv : v = u <;> simp [setDialogMode, getState, setState, hv]

/-- `clearDialogMode` writes exactly the dialog fields of its user. -/
theorem clearDialogMode_frame (st : Store) (u : Int) (v : Int) :
    (getState (clearDialogMode st u) v).askMode = (getState st v).askMode ∧
    (getState (clearDialogMode st u) v).askJSONMode = (getState st v).askJSONMode ∧
    (getState (clearDialogMode st u) v).dialogMode =
      (if v = u then "" else (getState st v).dialogMode) ∧
    (getState (clearDialogMode st u) v).dialogID =
      (if v = u then "" else (getState st v).dialogID) ∧
    (getState (clearDialogMode st u) v).solveMode = (getState st v).solveMode := by
  by_cases hv : v = u <;> simp [clearDialogMode, getState, setState, hv]

/-- `setSolveMode` writes exactly the solve flag of its user. -/
theorem setSolveMode_frame (st : Store) (u : Int) (b : Bool) (v : Int) :
    (getState (setSolveMode st u b) v).askMode = (getState st v).askMode ∧
    (getState (setSolveMode st u b) v).askJSONMode = (getState st v).askJSONMode ∧
    (getState (setSolveMode st u b) v).dialogMode = (getState st v).dialogMode ∧
    (getState (setSolveMode st u b) v).dialogID = (getState st v).dialogID ∧
    (getState (setSolveMode st u b) v).solveMode =
      (if v = u then b else (getState st v).solveMode) := by
  by_cases hv : v = u <;> simp [setSolveMode, getState, setState, hv]

/-- `handleAsk` touches no mode field on any of its paths, error paths
included. -/
theorem handleAsk_frame (st : Store) (uid : Int) (q : String) (env : AskEnv) (v : Int) :
    (getState (handleAsk st uid q env) v).askMode = (getState st v).askMode ∧
    (getState (handleAsk st uid q env) v).askJSONMode = (getState st v).askJSONMode ∧
    (getState (handleAsk st uid q env) v).dialogMode = (getState st v).dialogMode ∧
    (getState (handleAsk st uid q env) v).dialogID = (getState st v).dialogID ∧
    (getState (handleAsk st uid q env) v).solveMode = (getState st v).solveMode := by
  simp only [handleAsk]
  cases henv : env.llmAnswer <;> split_ifs <;>
    simp [setLastQuestion_frame, getAndClearShowModelName_frame]

/-- `handleAskJSON` touches no mode field on any of its paths. -/
theorem handleAskJSON_frame (st : Store) (uid : Int) (q c : String)
    (env : AskJSONEnv) (v : Int) :
    (getState (handleAskJSON st uid q c env) v).askMode = (getState st v).askMode ∧
    (getState (handleAskJSON st uid q c env) v).askJSONMode = (getState st v).askJSONMode ∧
    (getState (handleAskJSON st uid q c env) v).dialogMode = (getState st v).dialogMode ∧
    (getState (handleAskJSON st uid q c env) v).dialogID = (getState st v).dialogID ∧
    (getState (handleAskJSON st uid q c env) v).solveMode = (getState st v).solveMode := by
  simp only [handleAskJSON]
  cases henv : env.llmAnswer <;> split_ifs <;>
    simp [setLastQuestion_frame, getAndClearShowModelName_frame]

/-- `handleDialogMessage` touches no mode field on any of its paths, error
paths included. -/
theorem handleDialogMessage_frame (st : Store) (uid : Int) (text mode dialogID : String)
    (env : DialogEnv) (v : Int) :
    (getState (handleDialogMessage st uid text mode dialogID env) v).askMode =
      (getState st v).askMode ∧
    (getState (handleDialogMessage st uid text mode dialogID env) v).askJSONMode =
      (getState st v).askJSONMode ∧
    (getState (handleDialogMessage st uid text mode dialogID env) v).dialogMode =
      (getState st v).dialogMode ∧
    (getState (handleDialogMessage st uid text mode dialogID env) v).dialogID =
      (getState st v).dialogID ∧
    (getState (handleDialogMessage st uid text mode dialogID env) v).solveMode =
      (getState st v).solveMode := by
  simp only [handleDialogMessage]
  cases henv : env.planAnswer <;> split_ifs <;>
    simp [setLastDialogMessage_frame, getAndClearShowModelName_frame]

/-- C8: a failed downstream call leaves the caller's mode fields exactly as
they were: after `handleDialogMessage` whose `CreatePlan` call errors the
user keeps the same `dialogMode` and `dialogID`, and after `handleAsk`
whose `ChatCompletion` call errors the user keeps the same `askMode`. -/
theorem handler_error_preserves_mode (st : Store) (uid : Int)
    (text q mode dialogID : String) (denv : DialogEnv) (aenv : AskEnv)
    (hd : denv.planAnswer = none) (ha : aenv.llmAnswer = none) :
    (getState (handleDialogMessage st uid text mode dialogID denv) uid).dialogMode =
      (getState st uid).dialogMode ∧
    (getState (handleDialogMessage st uid text mode dialogID denv) uid).dialogID =
      (getState st uid).dialogID ∧
    (getState (handleAsk st uid q aenv) uid).askMode = (getState st uid).askMode :=
  ⟨(handleDialogMessage_frame st uid text mode dialogID denv uid).2.2.1,
   (handleDialogMessage_frame st uid text mode dialogID denv uid).2.2.2.1,
   (handleAsk_frame st uid q aenv uid).1⟩

/-- The store used by the C8 witness: user 1 is in ask mode with an active
create-plan dialog. -/
def c8Store : Store :=
  setDialogMode (setAskMode initialStore 1 true) 1 dialogModeCreatePlan "d1"

theorem handler_error_preserves_mode_witness :
    (getState (handleDialogMessage c8Store 1 "msg" dialogModeCreatePlan "d1"
        ⟨true, true, none⟩) 1).dialogMode = (getState c8Store 1).dialogMode ∧
    (getState (handleDialogMessage c8Store 1 "msg" dialogModeCreatePlan "d1"
        ⟨true, true, none⟩) 1).dialogID = (getState c8Store 1).dialogID ∧
    (getState (handleAsk c8Store 1 "q" ⟨true, true, none⟩) 1).askMode =
      (getState c8Store 1).askMode :=
  handler_error_preserves_mode c8Store 1 "msg" "q" dialogModeCreatePlan "d1"
    ⟨true, true, none⟩ ⟨true, true, none⟩ rfl rfl

/-- The store reached by `/ask` followed by `/create_plan` for user 1. -/
def c9Store : Store :=
  applyEvent (applyEvent initialStore (.evAsk 1 true "" ⟨true, true, none⟩))
    (.evCreatePlan 1 true "d1")

/-- C9 counterexample: the store reached by `/ask` then `/create_plan` is
reachable through the claimed handler operations, yet has both `askMode`
set and a non-empty `dialogMode` for the same user — `/create_plan` never
clears `askMode` — so the four mode indicators are not mutually
exclusive. -/
theorem mode_exclusivity_counterexample :
    Reachable c9Store ∧ (getState c9Store 1).askMode = true ∧
    (getState c9Store 1).dialogMode ≠ "" :=
  ⟨Reachable.step _ _ (Reachable.step _ _ Reachable.init), by decide, by decide⟩

/-- Each handler operation preserves, pointwise for each user, the mutual
exclusion of `askMode` and `askJSONMode`. -/
theorem applyEvent_preserves_exclusive (st : Store) (e : Event) (v : Int)
    (h : ¬((getState st v).askMode = true ∧ (getState st v).askJSONMode = true)) :
    ¬((getState (applyEvent st e) v).askMode = true ∧
      (getState (applyEvent st e) v).askJSONMode = true) := by
  cases e with
  | evAsk uid authorized arg env =>
    simp only [applyEvent, cmdAsk]
    split_ifs with h1 h2
    · simp only [clearPending_frame]
      exact h
    · by_cases hv : v = uid
      · subst hv
        simp [setAskJSONMode, setAskMode, clearPending, getState, setState]
      · simp only [setAskJSONMode_frame, setAskMode_frame, clearPending_frame, if_neg hv]
        exact h
    · by_cases hv : v = uid
      · subst hv
        simp only [handleAsk_frame]
        simp [setAskJSONMode, setAskMode, clearPending, getState, setState]
      · simp only [handleAsk_frame, setAskJSONMode_frame, setAskMode_frame,
          clearPending_frame, if_neg hv]
        exact h
  | evAskJSON uid authorized contractName contractKnown =>
    simp only [applyEvent, cmdAskJSON]
    split_ifs with h1 h2
    · simp only [clearPending_frame]
      exact h
    · simp only [clearPending_frame]
      exact h
    · by_cases hv : v = uid
      · subst hv
        simp [setAskJSONMode, setAskMode, clearPending, getState, setState]
      · simp only [setAskJSONMode_frame, setAskMode_frame, clearPending_frame, if_neg hv]
        exact h
  | evCreatePlan uid authorized newDialogID =>
    simp only [applyEvent, cmdCreatePlan, handleCreatePlanCommand]
    split_ifs with h1
    · simp only [clearPending_frame]
      exact h
    · simp only [setDialogMode_frame, clearPending_frame]
      exact h
  | evSolve uid authorized =>
    simp only [applyEvent, cmdSolve]
    split_ifs with h1
    · simp only [clearPending_frame]
      exact h
    · simp only [clearPending_frame]
      exact h
  | evEnd uid =>
    simp only [applyEvent, cmdEnd]
    split_ifs with h1 h2
    · simp only [handleEndDialog]
      split_ifs with h3
      · by_cases hv : v = uid
        · subst hv
          simp [setSolveMode, setAskJSONMode, setAskMode, clearPending, getState, setState]
        · simp only [setSolveMode_frame, setAskJSONMode_frame, setAskMode_frame,
            clearPending_frame, if_neg hv]
          exact h
      · by_cases hv : v = uid
        · subst hv
          simp [clearDialogMode, setSolveMode, setAskJSONMode, setAskMode,
            clearPending, getState, setState]
        · simp only [clearDialogMode_frame, setSolveMode_frame, setAskJSONMode_frame,
            setAskMode_frame, clearPending_frame, if_neg hv]
          exact h
    · by_cases hv : v = uid
      · subst hv
        simp [setSolveMode, setAskJSONMode, setAskMode, clearPending, getState, setState]
      · simp only [setSolveMode_frame, setAskJSONMode_frame, setAskMode_frame,
          clearPending_frame, if_neg hv]
        exact h
    · simp only [clearPending_frame]
      exact h
  | evSolveModelCb uid authorized validIndex modelID =>
    simp only [applyEvent, cbSolveModel]
    split_ifs with h1 h2
    · exact h
    · exact h
    · simp only [setSolveMode_frame, setSolveModel_frame]
      exact h
  | evSolveRetryCb uid authorized parseOk step action randModel =>
    simp only [applyEvent, cbSolveRetry]
    split_ifs <;>
      first
        | exact h
        | (simp only [setSolveStepModel_frame]; exact h)
  | evRetryCb uid authorized hasMessage action aenv jenv denv =>
    simp only [applyEvent, cbRetry]
    split_ifs <;>
      first
        | exact h
        | (simp only [handleAsk_frame]; exact h)
        | (simp only [handleAskJSON_frame]; exact h)
        | (simp only [handleDialogMessage_frame]; exact h)

/-- C9 amended: in every store reachable through the handler operations,
`askMode` and `askJSONMode` are mutually exclusive for each user; the
dialog and solve indicators, however, can coexist with them (see the
counterexample). -/
theorem ask_json_modes_exclusive (st : Store) (h : Reachable st) (uid : Int) :
    ¬((getState st uid).askMode = true ∧ (getState st uid).askJSONMode = true) := by
  induction h with
  | init => simp [initialStore, getState, emptyUserState]
  | step st' e hr ih => exact applyEvent_preserves_exclusive st' e uid ih

theorem ask_json_modes_exclusive_witness :
    ¬((getState initialStore 1).askMode = true ∧
      (getState initialStore 1).askJSONMode = true) :=
  ask_json_modes_exclusive initialStore Reachable.init 1

end Webhook

end Aiadvent
